import Mathlib

/-
  Verification of the repository layer, the row-folding helper, the validating
  request extractor and the handler status mapping of the rust-simple-api
  todo/label service.

  The Rust sources are embedded shallowly:
  * the in-memory store (a HashMap behind a lock, accessed in synchronous
    critical sections) becomes an association list with explicit state passing;
  * i32 ids become Int (the usize -> i32 cast of the id computation is kept
    explicit in i32ofNat);
  * fallible operations return Except, and operations whose Rust code can
    panic (unwrap / expect) return Option, with none modelling the panic;
  * the SQL driver is modelled by its documented effect on a list of rows.
-/

set_option autoImplicit false

namespace SimpleApi

/-- Label entity (src/src/repositories/labels.rs): integer id and name. -/
structure Label where
  id : Int
  name : String
deriving DecidableEq, Repr

/-- TodoEntity (src/src/repositories/todo.rs): id, text, completed flag and
the list of associated labels. -/
structure TodoEntity where
  id : Int
  text : String
  completed : Bool
  labels : List Label
deriving DecidableEq, Repr

/-- Row shape TodoWithLabelFromRow (src/src/repositories/todo.rs): the columns
fetched from the todos table; the label columns are commented out in the
source, so a row carries only id, text and completed. -/
structure TodoWithLabelFromRow where
  id : Int
  text : String
  completed : Bool
deriving DecidableEq, Repr

/-- CreateTodo payload: a single text field (validated 1..100 chars). -/
structure CreateTodo where
  text : String
deriving DecidableEq, Repr

/-- UpdateTodo payload: optional text, optional completed flag, optional list
of label ids. -/
structure UpdateTodo where
  text : Option String
  completed : Option Bool
  labels : Option (List Int)
deriving DecidableEq, Repr

/-- RepositoryError (src/src/repositories.rs, with the Duplicate variant that
src/src/repositories/labels.rs constructs as RepositoryError::Duplicate). -/
inductive RepositoryError where
  | Unexpected (msg : String)
  | NotFound (id : Int)
  | Duplicate (id : Int)
deriving DecidableEq, Repr

/-- fold_entities (src/src/repositories/todo.rs lines 41-59): folds the row
vector, pushing one TodoEntity per row, copying id, text and completed and
always setting labels to the empty vector. -/
def fold_entities (rows : List TodoWithLabelFromRow) : List TodoEntity :=
  rows.foldl
    (fun accum current =>
      accum ++ [{ id := current.id, text := current.text,
                  completed := current.completed, labels := [] }])
    []

/-- fold_entity (src/src/repositories/todo.rs lines 61-66): folds a singleton
row vector and takes the first result; the expect panic on an empty result is
modelled by none. -/
def fold_entity (row : TodoWithLabelFromRow) : Option TodoEntity :=
  (fold_entities [row]).head?

/-- Association-list lookup: value of the first entry with the given key,
modelling HashMap::get. -/
def lookupEntries : List (Int × TodoEntity) → Int → Option TodoEntity
  | [], _ => none
  | p :: rest, id => if p.1 = id then some p.2 else lookupEntries rest id

/-- Association-list insert-or-replace, modelling HashMap::insert: the entry
with the given key is replaced in place, or appended if the key is absent. -/
def upsertEntries : List (Int × TodoEntity) → Int → TodoEntity → List (Int × TodoEntity)
  | [], id, t => [(id, t)]
  | p :: rest, id, t => if p.1 = id then (id, t) :: rest else p :: upsertEntries rest id t

/-- Association-list removal of the entries with the given key, modelling
HashMap::remove (which leaves the map unchanged when the key is absent). -/
def removeEntries : List (Int × TodoEntity) → Int → List (Int × TodoEntity)
  | [], _ => []
  | p :: rest, id => if p.1 = id then removeEntries rest id else p :: removeEntries rest id

/-- The in-memory backing store of TodoRepositoryForMemory: a HashMap from
i32 id to TodoEntity, modelled as an association list (the operations keep
the keys distinct, mirroring map semantics). -/
structure TodoStore where
  entries : List (Int × TodoEntity)
deriving DecidableEq, Repr

def TodoStore.get (s : TodoStore) (id : Int) : Option TodoEntity :=
  lookupEntries s.entries id

def TodoStore.insert (s : TodoStore) (id : Int) (t : TodoEntity) : TodoStore :=
  ⟨upsertEntries s.entries id t⟩

def TodoStore.erase (s : TodoStore) (id : Int) : TodoStore :=
  ⟨removeEntries s.entries id⟩

def TodoStore.size (s : TodoStore) : Nat :=
  s.entries.length

def TodoStore.keys (s : TodoStore) : List Int :=
  s.entries.map (fun p => p.1)

/-- Cast of a usize value to i32, as in the id computation
(store.len() + 1) as i32: reduce modulo 2^32 and reinterpret as signed. -/
def i32ofNat (n : Nat) : Int :=
  if n % 2 ^ 32 < 2 ^ 31 then ((n % 2 ^ 32 : Nat) : Int)
  else ((n % 2 ^ 32 : Nat) : Int) - 2 ^ 32

/-- TodoEntity::new (test_utils in src/src/repositories/todo.rs): a fresh
entity with completed = false and no labels. -/
def TodoEntity.new (id : Int) (text : String) : TodoEntity :=
  { id := id, text := text, completed := false, labels := [] }

/-- TodoRepositoryForMemory::create: id is (store.len() + 1) as i32, the new
entity is inserted and returned; the operation never fails. -/
def memoryCreate (s : TodoStore) (payload : CreateTodo) : TodoEntity × TodoStore :=
  let id := i32ofNat (s.size + 1)
  let todo := TodoEntity.new id payload.text
  (todo, s.insert id todo)

/-- TodoRepositoryForMemory::find: clone of the stored entity, or NotFound;
the store is read under a shared lock and never modified. -/
def memoryFind (s : TodoStore) (id : Int) :
    Except RepositoryError TodoEntity × TodoStore :=
  (match s.get id with
   | some todo => Except.ok todo
   | none => Except.error (RepositoryError.NotFound id), s)

/-- TodoRepositoryForMemory::all: the stored values; never modifies the store. -/
def memoryAll (s : TodoStore) : List TodoEntity × TodoStore :=
  (s.entries.map (fun p => p.2), s)

/-- One step of Iterator::find on the label iterator of resolve_labels: scan
forward for the first label with the wanted id, returning it together with the
not-yet-consumed remainder of the iterator (Iterator::find consumes the
iterator up to and including the first match). -/
def findFrom : List Label → Int → Option (Label × List Label)
  | [], _ => none
  | l :: rest, id => if l.id = id then some (l, rest) else findFrom rest id

/-- Body of TodoRepositoryForMemory::resolve_labels: one single iterator over
the stored label list is consumed across all id lookups, each lookup resuming
after the previous match; a failed lookup is unwrapped, so none models the
panic. -/
def resolveLabelsAux : List Label → List Int → Option (List Label)
  | _, [] => some []
  | avail, id :: rest =>
    match findFrom avail id with
    | none => none
    | some (l, avail2) => (resolveLabelsAux avail2 rest).map (fun ls => l :: ls)

/-- TodoRepositoryForMemory::resolve_labels (src/src/repositories/todo.rs
lines 288-295). -/
def resolveLabels (stored : List Label) (ids : List Int) : Option (List Label) :=
  resolveLabelsAux stored ids

/-- TodoRepositoryForMemory::update (src/src/repositories/todo.rs lines
322-339): NotFound if the id is absent; otherwise each present payload field
overwrites the stored field, a present labels field is resolved through
resolve_labels (none models its unwrap panic), and the rebuilt entity is
inserted back and returned. -/
def memoryUpdate (labels : List Label) (s : TodoStore) (id : Int)
    (payload : UpdateTodo) :
    Option (Except RepositoryError TodoEntity × TodoStore) :=
  match s.get id with
  | none => some (Except.error (RepositoryError.NotFound id), s)
  | some todo =>
    let text := payload.text.getD todo.text
    let completed := payload.completed.getD todo.completed
    match payload.labels with
    | none =>
      let todo2 : TodoEntity :=
        { id := id, text := text, completed := completed, labels := todo.labels }
      some (Except.ok todo2, s.insert id todo2)
    | some ids =>
      match resolveLabels labels ids with
      | none => none
      | some resolved =>
        let todo2 : TodoEntity :=
          { id := id, text := text, completed := completed, labels := resolved }
        some (Except.ok todo2, s.insert id todo2)

/-- TodoRepositoryForMemory::delete (src/src/repositories/todo.rs lines
341-345): HashMap::remove, then ok_or(NotFound) on the removed value. -/
def memoryDelete (s : TodoStore) (id : Int) :
    Except RepositoryError Unit × TodoStore :=
  match s.get id with
  | none => (Except.error (RepositoryError.NotFound id), s.erase id)
  | some _ => (Except.ok (), s.erase id)

/-- States of the in-memory store reachable from the empty map by create,
update and delete operations. -/
inductive ReachableStore : TodoStore → Prop where
  | init : ReachableStore ⟨[]⟩
  | create {s : TodoStore} (p : CreateTodo) :
      ReachableStore s → ReachableStore (memoryCreate s p).2
  | update {s : TodoStore} (L : List Label) (id : Int) (p : UpdateTodo)
      (r : Except RepositoryError TodoEntity) (s2 : TodoStore) :
      ReachableStore s → memoryUpdate L s id p = some (r, s2) →
      ReachableStore s2
  | delete {s : TodoStore} (id : Int) :
      ReachableStore s → ReachableStore (memoryDelete s id).2

/-- Driver error shape relevant to the map_err calls of the code: either the
RowNotFound error or any other driver error with its message. -/
inductive SqlxError where
  | RowNotFound
  | Other (msg : String)
deriving DecidableEq, Repr

/-- The map_err closure used by TodoRepositoryForDb::find and delete:
RowNotFound becomes NotFound(id), everything else Unexpected(message). -/
def mapSqlxErr (id : Int) (e : SqlxError) : RepositoryError :=
  match e with
  | SqlxError.RowNotFound => RepositoryError.NotFound id
  | SqlxError.Other msg => RepositoryError.Unexpected msg

/-- First row of the todos table with the given id. -/
def dbFindRow (db : List TodoWithLabelFromRow) (id : Int) :
    Option TodoWithLabelFromRow :=
  db.find? (fun r => r.id == id)

/-- fetch_one of SELECT * FROM todos WHERE id=$1: the matching row, or the
RowNotFound driver error when no row matches. -/
def sqlxFetchTodo (db : List TodoWithLabelFromRow) (id : Int) :
    Except SqlxError TodoWithLabelFromRow :=
  match dbFindRow db id with
  | some r => Except.ok r
  | none => Except.error SqlxError.RowNotFound

/-- TodoRepositoryForDb::find (src/src/repositories/todo.rs lines 108-119):
fetch one row, map RowNotFound to NotFound, fold it into an entity (none
models the expect panic inside fold_entity, which provably cannot fire). -/
def dbFind (db : List TodoWithLabelFromRow) (id : Int) :
    Option (Except RepositoryError TodoEntity) :=
  match sqlxFetchTodo db id with
  | Except.error e => some (Except.error (mapSqlxErr id e))
  | Except.ok row => (fold_entity row).map Except.ok

/-- TodoRepositoryForDb::update (src/src/repositories/todo.rs lines 130-142):
find the old entity, then UPDATE ... SET text, completed WHERE id RETURNING,
each column taken from the payload field when present and from the old entity
otherwise; the payload labels field is not used at all. The UPDATE is
modelled by rewriting the matching rows and returning the new row. -/
def dbUpdate (db : List TodoWithLabelFromRow) (id : Int) (payload : UpdateTodo) :
    Option (Except RepositoryError TodoEntity × List TodoWithLabelFromRow) :=
  match dbFind db id with
  | none => none
  | some (Except.error e) => some (Except.error e, db)
  | some (Except.ok old) =>
    let newRow : TodoWithLabelFromRow :=
      { id := id, text := payload.text.getD old.text,
        completed := payload.completed.getD old.completed }
    let db2 := db.map (fun r => if r.id = id then newRow else r)
    (fold_entity newRow).map (fun e => (Except.ok e, db2))

/-- execute of DELETE FROM todos WHERE id=$1: removes the matching rows and
succeeds regardless of how many rows matched — a DELETE affecting zero rows
is not a driver error, and the RowNotFound error arises only from fetch_one
style calls that expect a returned row, never from execute. -/
def sqlxExecuteDeleteTodos (db : List TodoWithLabelFromRow) (id : Int) :
    Except SqlxError (List TodoWithLabelFromRow) :=
  Except.ok (db.filter (fun r => !(r.id == id)))

/-- TodoRepositoryForDb::delete (src/src/repositories/todo.rs lines 144-155):
execute the DELETE statement and map a RowNotFound driver error to
NotFound(id); since execute never produces RowNotFound, that branch of the
map_err is unreachable. -/
def dbDelete (db : List TodoWithLabelFromRow) (id : Int) :
    Except RepositoryError Unit × List TodoWithLabelFromRow :=
  match sqlxExecuteDeleteTodos db id with
  | Except.error e => (Except.error (mapSqlxErr id e), db)
  | Except.ok db2 => (Except.ok (), db2)

/-- The labels table together with the next value of its id sequence (INSERT
... RETURNING is modelled by appending a row with the next serial id). -/
structure LabelDb where
  rows : List Label
  nextId : Int
deriving DecidableEq, Repr

/-- fetch_optional of SELECT * FROM labels WHERE name=$1: the first row with
the given name, if any. -/
def labelDbLookup (db : LabelDb) (name : String) : Option Label :=
  db.rows.find? (fun l => l.name == name)

/-- LabelRepositoryForDb::create (src/src/repositories/labels.rs lines
38-54): look up an existing label with the same name; if found, fail with
Duplicate carrying the existing id and insert nothing; otherwise insert and
return the new label. -/
def labelDbCreate (db : LabelDb) (name : String) :
    Except RepositoryError Label × LabelDb :=
  match labelDbLookup db name with
  | some l => (Except.error (RepositoryError.Duplicate l.id), db)
  | none =>
    let l : Label := { id := db.nextId, name := name }
    (Except.ok l, { rows := db.rows ++ [l], nextId := db.nextId + 1 })

/-- Modelled from the spec: the LabelRepository delete contract (the
relational implementation in src/src/repositories/labels.rs is an
unimplemented stub), analogous to todo delete — NotFound if the id is absent,
otherwise the label is removed permanently. -/
def labelDelete (db : LabelDb) (id : Int) : Except RepositoryError Unit × LabelDb :=
  if db.rows.any (fun l => l.id == id) then
    (Except.ok (), { rows := db.rows.filter (fun l => !(l.id == id)), nextId := db.nextId })
  else
    (Except.error (RepositoryError.NotFound id), db)

/-- ValidateJson::from_request (src/src/handlers/todo.rs lines 37-54): the
deserialization outcome is modelled as Except with the rejection display
string, and the declared validation rules of the payload type as a function
returning the list of violation message lines; a parse failure yields 400
with the parse message embedded, violations yield 400 with the newline-joined
violation display flattened to commas, and only a clean payload is returned
to the handler. -/
def validateJsonFromRequest {T : Type} (rules : T → List String)
    (parsed : Except String T) : Except (Nat × String) T :=
  match parsed with
  | Except.error rejection =>
    Except.error (400, "Json parse error: [" ++ rejection ++ "]")
  | Except.ok value =>
    match rules value with
    | [] => Except.ok value
    | msgs =>
      Except.error
        (400, String.replace ("Validation error: [" ++ String.intercalate "\n" msgs ++ "]") "\n" ",")

/-- Declared validation rules of CreateTodo (src/src/repositories/todo.rs
lines 68-73): length at least 1 with message "Can not be empty", length at
most 100 with message "Over test length"; the validator length check counts
characters, and its display prefixes the field name. -/
def createTodoRules (p : CreateTodo) : List String :=
  (if p.text.length < 1 then ["text: Can not be empty"] else []) ++
  (if 100 < p.text.length then ["text: Over test length"] else [])

/-- Status produced by the find_todo handler (src/src/handlers/todo.rs lines
73-80) from the repository outcome: every error becomes 404 via
or(Err(StatusCode::NOT_FOUND)). -/
def find_todo_status (r : Except RepositoryError TodoEntity) : Nat :=
  match r with
  | Except.ok _ => 200
  | Except.error _ => 404

/-- Status produced by the create_todo handler (src/src/handlers/todo.rs
lines 62-71): every error becomes 404, success 201. -/
def create_todo_status (r : Except RepositoryError TodoEntity) : Nat :=
  match r with
  | Except.ok _ => 201
  | Except.error _ => 404

/-- Status produced by the update_todo handler (src/src/handlers/todo.rs
lines 89-99): every error becomes 404, success 200. -/
def update_todo_status (r : Except RepositoryError TodoEntity) : Nat :=
  match r with
  | Except.ok _ => 200
  | Except.error _ => 404

/-- Status produced by the delete_todo handler (src/src/handlers/todo.rs
lines 101-110): every error becomes 404, success 204. -/
def delete_todo_status (r : Except RepositoryError Unit) : Nat :=
  match r with
  | Except.ok _ => 204
  | Except.error _ => 404

/-- Status produced by the create_label handler (src/src/handlers/label.rs
lines 11-21): every error becomes 500, success 201. -/
def create_label_status (r : Except RepositoryError Label) : Nat :=
  match r with
  | Except.ok _ => 201
  | Except.error _ => 500

/-- Status produced by the delete_label handler (src/src/handlers/label.rs
lines 30-39): every error becomes 500 via unwrap_or, success 204. -/
def delete_label_status (r : Except RepositoryError Unit) : Nat :=
  match r with
  | Except.ok _ => 204
  | Except.error _ => 500

/-! ### Helper lemmas about the association-list store -/

theorem lookupEntries_upsert_self (es : List (Int × TodoEntity)) (id : Int) (t : TodoEntity) :
    lookupEntries (upsertEntries es id t) id = some t := by
  induction es with
  | nil => simp [upsertEntries, lookupEntries]
  | cons p rest ih =>
    by_cases h : p.1 = id
    · simp [upsertEntries, lookupEntries, h]
    · simp [upsertEntries, lookupEntries, h, ih]

theorem removeEntries_of_lookup_none (es : List (Int × TodoEntity)) (id : Int)
    (h : lookupEntries es id = none) : removeEntries es id = es := by
  induction es with
  | nil => rfl
  | cons p rest ih =>
    by_cases hp : p.1 = id
    · simp [lookupEntries, hp] at h
    · simp [lookupEntries, hp] at h
      simp [removeEntries, hp, ih h]

theorem lookupEntries_eq_none_iff (es : List (Int × TodoEntity)) (id : Int) :
    lookupEntries es id = none ↔ id ∉ es.map (fun p => p.1) := by
  induction es with
  | nil => simp [lookupEntries]
  | cons p rest ih =>
    simp only [lookupEntries, List.map_cons, List.mem_cons]
    by_cases hp : p.1 = id
    · simp [hp]
    · rw [if_neg hp, ih]
      constructor
      · intro h hmem
        rcases hmem with h1 | h1
        · exact hp h1.symm
        · exact h h1
      · intro h h1
        exact h (Or.inr h1)

theorem keys_upsert (es : List (Int × TodoEntity)) (id : Int) (t : TodoEntity) :
    (upsertEntries es id t).map (fun p => p.1)
    = if lookupEntries es id = none then es.map (fun p => p.1) ++ [id]
      else es.map (fun p => p.1) := by
  induction es with
  | nil => simp [upsertEntries, lookupEntries]
  | cons p rest ih =>
    by_cases hp : p.1 = id
    · simp [upsertEntries, lookupEntries, hp]
    · simp only [upsertEntries, lookupEntries, hp, if_false, List.map_cons, ih]
      split <;> simp

theorem nodup_keys_upsert (es : List (Int × TodoEntity)) (id : Int) (t : TodoEntity)
    (h : (es.map (fun p => p.1)).Nodup) :
    ((upsertEntries es id t).map (fun p => p.1)).Nodup := by
  rw [keys_upsert]
  split
  · rename_i hnone
    have hid : id ∉ es.map (fun p => p.1) := (lookupEntries_eq_none_iff es id).mp hnone
    refine List.nodup_append.mpr ⟨h, by simp, ?_⟩
    intro a ha hb
    rw [List.mem_singleton] at hb
    exact hid (hb ▸ ha)
  · exact h

theorem removeEntries_sublist (es : List (Int × TodoEntity)) (id : Int) :
    List.Sublist (removeEntries es id) es := by
  induction es with
  | nil => simp [removeEntries]
  | cons p rest ih =>
    by_cases hp : p.1 = id
    · simp only [removeEntries, hp, if_true]
      exact ih.cons p
    · simp only [removeEntries, hp, if_false]
      exact ih.cons₂ p

theorem nodup_keys_remove (es : List (Int × TodoEntity)) (id : Int)
    (h : (es.map (fun p => p.1)).Nodup) :
    ((removeEntries es id).map (fun p => p.1)).Nodup := by
  exact h.sublist ((removeEntries_sublist es id).map (fun p => p.1))

/-! ### Helper lemmas about fold_entities and the label tables -/

theorem foldl_push_eq_map (rows : List TodoWithLabelFromRow)
    (acc : List TodoEntity) :
    rows.foldl
      (fun accum current =>
        accum ++ [{ id := current.id, text := current.text,
                    completed := current.completed, labels := [] }])
      acc
    = acc ++ rows.map (fun r =>
        { id := r.id, text := r.text, completed := r.completed, labels := [] }) := by
  induction rows generalizing acc with
  | nil => simp
  | cons r rest ih => simp [List.foldl_cons, ih]

theorem fold_entities_eq_map (rows : List TodoWithLabelFromRow) :
    fold_entities rows
    = rows.map (fun r =>
        { id := r.id, text := r.text, completed := r.completed, labels := [] }) := by
  simpa [fold_entities] using foldl_push_eq_map rows []

theorem fold_entity_eq (row : TodoWithLabelFromRow) :
    fold_entity row
    = some { id := row.id, text := row.text, completed := row.completed, labels := [] } := by
  simp [fold_entity, fold_entities_eq_map]

theorem find?_append_of_none {α : Type} (p : α → Bool) (l1 l2 : List α)
    (h : l1.find? p = none) : (l1 ++ l2).find? p = l2.find? p := by
  induction l1 with
  | nil => simp
  | cons a rest ih =>
    cases hp : p a with
    | true =>
      simp only [List.find?_cons, hp] at h
      exact absurd h (by simp)
    | false =>
      simp only [List.find?_cons, hp] at h
      simp only [List.cons_append, List.find?_cons, hp]
      exact ih h

theorem filter_eq_nil_of_find?_none {α : Type} (p : α → Bool) (l : List α)
    (h : l.find? p = none) : l.filter p = [] := by
  induction l with
  | nil => rfl
  | cons a rest ih =>
    cases hp : p a with
    | true =>
      simp only [List.find?_cons, hp] at h
      exact absurd h (by simp)
    | false =>
      simp only [List.find?_cons, hp] at h
      simp only [List.filter_cons, hp, Bool.false_eq_true, if_false]
      exact ih h

/-! ### Helper lemmas about resolve_labels -/

theorem resolveLabelsAux_cons_ne (l : Label) (ls : List Label) (a : Int)
    (as : List Int) (h : l.id ≠ a) :
    resolveLabelsAux (l :: ls) (a :: as) = resolveLabelsAux ls (a :: as) := by
  simp [resolveLabelsAux, findFrom, h]

theorem resolveLabelsAux_isSome_of_sublist (avail : List Label) :
    ∀ ids : List Int, List.Sublist ids (avail.map Label.id) →
      (resolveLabelsAux avail ids).isSome = true := by
  induction avail with
  | nil =>
    intro ids h
    rw [List.map_nil, List.sublist_nil] at h
    subst h
    rfl
  | cons l ls ih =>
    intro ids h
    cases ids with
    | nil => rfl
    | cons a as =>
      rw [List.map_cons] at h
      cases h with
      | cons _ h2 =>
        by_cases hl : l.id = a
        · have has : List.Sublist as (ls.map Label.id) :=
            ((List.Sublist.refl as).cons a).trans h2
          simp [resolveLabelsAux, findFrom, hl, Option.isSome_map']
          exact ih as has
        · rw [resolveLabelsAux_cons_ne l ls a as hl]
          exact ih (a :: as) h2
      | cons₂ _ h2 =>
        simp [resolveLabelsAux, findFrom, Option.isSome_map']
        exact ih as h2

theorem sublist_of_resolveLabelsAux_isSome (avail : List Label) :
    ∀ ids : List Int, (resolveLabelsAux avail ids).isSome = true →
      List.Sublist ids (avail.map Label.id) := by
  induction avail with
  | nil =>
    intro ids h
    cases ids with
    | nil => simp
    | cons a as => simp [resolveLabelsAux, findFrom] at h
  | cons l ls ih =>
    intro ids h
    cases ids with
    | nil => simp
    | cons a as =>
      by_cases hl : l.id = a
      · simp only [resolveLabelsAux, findFrom, hl, if_true, Option.isSome_map'] at h
        rw [List.map_cons, ← hl]
        exact (ih as h).cons₂ l.id
      · rw [resolveLabelsAux_cons_ne l ls a as hl] at h
        rw [List.map_cons]
        exact (ih (a :: as) h).cons l.id

theorem resolveLabels_isSome_iff (stored : List Label) (ids : List Int) :
    (resolveLabels stored ids).isSome = true ↔
      List.Sublist ids (stored.map Label.id) := by
  constructor
  · exact sublist_of_resolveLabelsAux_isSome stored ids
  · exact resolveLabelsAux_isSome_of_sublist stored ids

/-! ### Helper lemmas about the store-level operations -/

theorem memoryUpdate_state (L : List Label) (s : TodoStore) (id : Int)
    (p : UpdateTodo) (r : Except RepositoryError TodoEntity) (s2 : TodoStore)
    (h : memoryUpdate L s id p = some (r, s2)) :
    s2 = s ∨ ∃ t : TodoEntity, s2 = s.insert id t := by
  cases hg : s.get id with
  | none =>
    simp [memoryUpdate, hg] at h
    exact Or.inl h.2.symm
  | some todo =>
    cases hl : p.labels with
    | none =>
      simp [memoryUpdate, hg, hl] at h
      exact Or.inr ⟨_, h.2.symm⟩
    | some ids =>
      cases hr : resolveLabels L ids with
      | none =>
        simp only [resolveLabels] at hr
        simp [memoryUpdate, resolveLabels, hg, hl, hr] at h
      | some rl =>
        simp only [resolveLabels] at hr
        simp [memoryUpdate, resolveLabels, hg, hl, hr] at h
        exact Or.inr ⟨_, h.2.symm⟩

theorem memoryDelete_snd (s : TodoStore) (id : Int) :
    (memoryDelete s id).2 = s.erase id := by
  cases hg : s.get id <;> simp [memoryDelete, hg]

/-! ### Claim theorems -/

/-- C5 counterexample: fold_entities does not aggregate rows sharing a todo
id — on two rows with the same id it produces two output entities, not the
single entity per distinct id that the claim requires. -/
theorem c5_fold_entities_counterexample :
    fold_entities [⟨1, "a", false⟩, ⟨1, "a", false⟩]
      = [⟨1, "a", false, []⟩, ⟨1, "a", false, []⟩] ∧
    ¬ (fold_entities [⟨1, "a", false⟩, ⟨1, "a", false⟩]).length = 1 := by
  constructor
  · rfl
  · decide

/-- C5 (amended): fold_entities performs no aggregation at all — it produces
exactly one TodoEntity per input row, in input order, copying id, text and
completed from the row and always setting the label list to empty; rows
sharing a todo id therefore yield one output entity each, and no labels are
accumulated. -/
theorem c5_fold_entities_one_per_row :
    ∀ rows : List TodoWithLabelFromRow,
      fold_entities rows
        = rows.map (fun r =>
            { id := r.id, text := r.text, completed := r.completed, labels := [] }) :=
  fold_entities_eq_map

/-- C7 counterexample: an Unexpected repository error reaching find_todo or
update_todo is reported as 404 (not 500), and a NotFound error reaching
delete_label is reported as 500 (not 404), contradicting the claimed
kind-to-status mapping. -/
theorem c7_status_counterexample :
    find_todo_status (Except.error (RepositoryError.Unexpected "connection reset")) = 404 ∧
    update_todo_status (Except.error (RepositoryError.Unexpected "connection reset")) = 404 ∧
    delete_label_status (Except.error (RepositoryError.NotFound 1)) = 500 ∧
    ¬ find_todo_status (Except.error (RepositoryError.Unexpected "connection reset")) = 500 ∧
    ¬ delete_label_status (Except.error (RepositoryError.NotFound 1)) = 404 :=
  ⟨rfl, rfl, rfl, by decide, by decide⟩

/-- C7 (amended): each handler maps every repository error to one fixed
status, independent of the error kind — the todo handlers (create, find,
update, delete) map any error to 404, and the label handlers (create,
delete) map any error to 500. -/
theorem c7_uniform_error_status :
    ∀ e : RepositoryError,
      find_todo_status (Except.error e) = 404 ∧
      create_todo_status (Except.error e) = 404 ∧
      update_todo_status (Except.error e) = 404 ∧
      delete_todo_status (Except.error e) = 404 ∧
      create_label_status (Except.error e) = 500 ∧
      delete_label_status (Except.error e) = 500 :=
  fun _ => ⟨rfl, rfl, rfl, rfl, rfl, rfl⟩

/-- C9: resolve_labels (and hence update with a present labels payload)
returns without panicking exactly when the requested id list is an in-order
subsequence of the stored label list; in particular it panics on a repeated
id ([1,1]) and on ids ordered against the stored order ([2,1]) even though
every requested id exists in the store, while the in-order request [1,2]
succeeds. -/
theorem c9_resolve_labels_totality :
    (∀ (stored : List Label) (ids : List Int),
      (resolveLabels stored ids).isSome = true ↔
        List.Sublist ids (stored.map Label.id)) ∧
    (∀ (L : List Label) (s : TodoStore) (id : Int) (t : Option String)
        (c : Option Bool) (ids : List Int),
      memoryUpdate L s id ⟨t, c, some ids⟩ = none ↔
        (s.get id).isSome = true ∧ resolveLabels L ids = none) ∧
    resolveLabels [⟨1, "a"⟩, ⟨2, "b"⟩] [1, 1] = none ∧
    resolveLabels [⟨1, "a"⟩, ⟨2, "b"⟩] [2, 1] = none ∧
    (1 : Int) ∈ List.map Label.id [⟨1, "a"⟩, ⟨2, "b"⟩] ∧
    (2 : Int) ∈ List.map Label.id [⟨1, "a"⟩, ⟨2, "b"⟩] ∧
    resolveLabels [⟨1, "a"⟩, ⟨2, "b"⟩] [1, 2] = some [⟨1, "a"⟩, ⟨2, "b"⟩] := by
  refine ⟨resolveLabels_isSome_iff, ?_, by decide, by decide, by decide, by decide, by decide⟩
  intro L s id t c ids
  cases hg : s.get id with
  | none => simp [memoryUpdate, hg]
  | some todo =>
    cases hr : resolveLabels L ids with
    | none =>
      simp only [resolveLabels] at hr
      simp [memoryUpdate, resolveLabels, hg, hr]
    | some resolved =>
      simp only [resolveLabels] at hr
      simp [memoryUpdate, resolveLabels, hg, hr]

/-- C1: partial-update semantics of update — for a stored todo, every present
payload field overwrites the stored field and every absent field keeps its
prior value: with an absent labels field the in-memory update keeps the stored
labels, with a present labels field it stores the resolved labels; the
relational update fills each SQL column from the payload field when present
and from the old entity otherwise; and in particular a stored todo with
text "a", completed false updated with text:None, completed:Some(true) yields
text "a", completed true. -/
theorem c1_partial_update :
    (∀ (L : List Label) (s : TodoStore) (id : Int) (todo : TodoEntity)
        (t : Option String) (c : Option Bool),
      s.get id = some todo →
      memoryUpdate L s id ⟨t, c, none⟩
        = some (Except.ok
            { id := id, text := t.getD todo.text,
              completed := c.getD todo.completed, labels := todo.labels },
          s.insert id
            { id := id, text := t.getD todo.text,
              completed := c.getD todo.completed, labels := todo.labels })) ∧
    (∀ (L : List Label) (s : TodoStore) (id : Int) (todo : TodoEntity)
        (t : Option String) (c : Option Bool) (ids : List Int) (rl : List Label),
      s.get id = some todo → resolveLabels L ids = some rl →
      memoryUpdate L s id ⟨t, c, some ids⟩
        = some (Except.ok
            { id := id, text := t.getD todo.text,
              completed := c.getD todo.completed, labels := rl },
          s.insert id
            { id := id, text := t.getD todo.text,
              completed := c.getD todo.completed, labels := rl })) ∧
    (∀ (db : List TodoWithLabelFromRow) (id : Int) (old : TodoWithLabelFromRow)
        (t : Option String) (c : Option Bool) (lbs : Option (List Int)),
      dbFindRow db id = some old →
      dbUpdate db id ⟨t, c, lbs⟩
        = some (Except.ok
            { id := id, text := t.getD old.text,
              completed := c.getD old.completed, labels := [] },
          db.map (fun r =>
            if r.id = id then
              { id := id, text := t.getD old.text, completed := c.getD old.completed }
            else r))) ∧
    memoryUpdate [] ⟨[(1, ⟨1, "a", false, []⟩)]⟩ 1 ⟨none, some true, none⟩
      = some (Except.ok ⟨1, "a", true, []⟩, ⟨[(1, ⟨1, "a", true, []⟩)]⟩) := by
  refine ⟨?_, ?_, ?_, ?_⟩
  · intro L s id todo t c h
    simp [memoryUpdate, h]
  · intro L s id todo t c ids rl h hr
    simp only [resolveLabels] at hr
    simp [memoryUpdate, resolveLabels, h, hr]
  · intro db id old t c lbs h
    simp [dbUpdate, dbFind, sqlxFetchTodo, h, fold_entity_eq]
  · rfl

/-- C1 witness: the partial-update theorem applied to the concrete store
holding todo 1 with text "a", completed false and the payload with only the
completed field present. -/
theorem c1_partial_update_witness :
    memoryUpdate [] ⟨[(1, ⟨1, "a", false, []⟩)]⟩ 1 ⟨none, some true, none⟩
      = some (Except.ok
          { id := 1, text := (none : Option String).getD "a",
            completed := (some true).getD false, labels := ([] : List Label) },
        TodoStore.insert ⟨[(1, ⟨1, "a", false, []⟩)]⟩ 1
          { id := 1, text := (none : Option String).getD "a",
            completed := (some true).getD false, labels := ([] : List Label) }) :=
  c1_partial_update.1 [] ⟨[(1, ⟨1, "a", false, []⟩)]⟩ 1 ⟨1, "a", false, []⟩ none
    (some true) rfl

/-- C3: creating a valid payload in the in-memory repository and finding the
returned id with no interleaving operation succeeds with exactly the created
todo, whose completed flag is false and whose label list is empty. -/
theorem c3_create_find_roundtrip :
    ∀ (s : TodoStore) (p : CreateTodo), createTodoRules p = [] →
      memoryFind (memoryCreate s p).2 (memoryCreate s p).1.id
        = (Except.ok (memoryCreate s p).1, (memoryCreate s p).2) ∧
      (memoryCreate s p).1.completed = false ∧
      (memoryCreate s p).1.labels = [] := by
  intro s p _
  refine ⟨?_, rfl, rfl⟩
  simp [memoryFind, memoryCreate, TodoStore.get, TodoStore.insert,
    TodoEntity.new, lookupEntries_upsert_self]

/-- C3 witness: the round-trip theorem applied to the empty store and the
valid payload with text "a". -/
theorem c3_create_find_roundtrip_witness :
    memoryFind (memoryCreate ⟨[]⟩ ⟨"a"⟩).2 (memoryCreate ⟨[]⟩ ⟨"a"⟩).1.id
      = (Except.ok (memoryCreate ⟨[]⟩ ⟨"a"⟩).1, (memoryCreate ⟨[]⟩ ⟨"a"⟩).2) ∧
    (memoryCreate ⟨[]⟩ ⟨"a"⟩).1.completed = false ∧
    (memoryCreate ⟨[]⟩ ⟨"a"⟩).1.labels = [] :=
  c3_create_find_roundtrip ⟨[]⟩ ⟨"a"⟩ (by decide)

/-- C4: label creation is anti-duplicate — when a label with the requested
name already exists, create fails with Duplicate carrying that label's id and
leaves the table unchanged; when none exists it inserts and returns the new
label; hence creating the same fresh name twice stores exactly one label with
that name and the second attempt fails with Duplicate referencing the first
label's id. -/
theorem c4_label_create_anti_duplicate :
    (∀ (db : LabelDb) (name : String) (l : Label),
      labelDbLookup db name = some l →
      labelDbCreate db name = (Except.error (RepositoryError.Duplicate l.id), db)) ∧
    (∀ (db : LabelDb) (name : String),
      labelDbLookup db name = none →
      labelDbCreate db name
        = (Except.ok ⟨db.nextId, name⟩,
           ⟨db.rows ++ [⟨db.nextId, name⟩], db.nextId + 1⟩)) ∧
    (∀ (db : LabelDb) (name : String),
      labelDbLookup db name = none →
      (labelDbCreate (labelDbCreate db name).2 name).1
          = Except.error (RepositoryError.Duplicate db.nextId) ∧
      (labelDbCreate (labelDbCreate db name).2 name).2 = (labelDbCreate db name).2 ∧
      ((labelDbCreate db name).2.rows.filter (fun l => l.name == name)).length = 1) := by
  refine ⟨?_, ?_, ?_⟩
  · intro db name l h
    simp [labelDbCreate, h]
  · intro db name h
    simp [labelDbCreate, h]
  · intro db name h
    have hl : db.rows.find? (fun l => l.name == name) = none := h
    have hnew : labelDbLookup ⟨db.rows ++ [⟨db.nextId, name⟩], db.nextId + 1⟩ name
        = some ⟨db.nextId, name⟩ := by
      unfold labelDbLookup
      rw [find?_append_of_none _ _ _ hl]
      simp [List.find?_cons]
    refine ⟨?_, ?_, ?_⟩
    · simp [labelDbCreate, h, hnew]
    · simp [labelDbCreate, h, hnew]
    · simp only [labelDbCreate, h]
      simp [List.filter_append, filter_eq_nil_of_find?_none _ _ hl]

/-- C4 witness: the anti-duplicate theorem applied to the empty label table
and the name "x" — the second create fails with Duplicate of id 1 and exactly
one label named "x" is stored. -/
theorem c4_label_create_anti_duplicate_witness :
    (labelDbCreate (labelDbCreate ⟨[], 1⟩ "x").2 "x").1
        = Except.error (RepositoryError.Duplicate (1 : Int)) ∧
    (labelDbCreate (labelDbCreate ⟨[], 1⟩ "x").2 "x").2 = (labelDbCreate ⟨[], 1⟩ "x").2 ∧
    ((labelDbCreate ⟨[], 1⟩ "x").2.rows.filter (fun l => l.name == "x")).length = 1 :=
  c4_label_create_anti_duplicate.2.2 ⟨[], 1⟩ "x" rfl

/-- C2 (failing input): the relational delete evaluated at an absent id —
deleting the only row succeeds, and deleting the same id again (now absent)
also succeeds instead of failing with NotFound, because the DELETE statement
is run with execute, which never produces the RowNotFound driver error that
the map_err arm would translate. -/
theorem c2_db_delete_succeeds_on_absent :
    dbDelete [⟨1, "x", false⟩] 1 = (Except.ok (), []) ∧
    dbDelete ([] : List TodoWithLabelFromRow) 1 = (Except.ok (), []) ∧
    ¬ (dbDelete ([] : List TodoWithLabelFromRow) 1).1
        = Except.error (RepositoryError.NotFound 1) := by
  refine ⟨rfl, rfl, ?_⟩
  intro h
  simp [dbDelete, sqlxExecuteDeleteTodos] at h

/-- C6: the validating extractor rejects a failed deserialization with 400
and a message embedding the parse failure, rejects a deserialized payload
with validation violations with 400 and the newline-joined violation display
flattened to commas, and hands the payload to the handler exactly when it
deserializes and passes validation; for CreateTodo, text of length 0 or 101
violates the rules and text of length 100 passes. -/
theorem c6_validate_json :
    (∀ (T : Type) (rules : T → List String) (rejection : String),
      validateJsonFromRequest rules (Except.error rejection)
        = Except.error (400, "Json parse error: [" ++ rejection ++ "]")) ∧
    (∀ (T : Type) (rules : T → List String) (v : T),
      rules v ≠ [] →
      validateJsonFromRequest rules (Except.ok v)
        = Except.error (400,
            String.replace
              ("Validation error: [" ++ String.intercalate "\n" (rules v) ++ "]")
              "\n" ",")) ∧
    (∀ (T : Type) (rules : T → List String) (v : T),
      validateJsonFromRequest rules (Except.ok v) = Except.ok v ↔ rules v = []) ∧
    createTodoRules ⟨""⟩ ≠ [] ∧
    createTodoRules ⟨String.mk (List.replicate 101 'a')⟩ ≠ [] ∧
    createTodoRules ⟨String.mk (List.replicate 100 'a')⟩ = [] := by
  refine ⟨?_, ?_, ?_, by decide, by decide, by decide⟩
  · intro T rules rejection
    rfl
  · intro T rules v h
    cases hr : rules v with
    | nil => exact absurd hr h
    | cons m ms => simp [validateJsonFromRequest, hr]
  · intro T rules v
    cases hr : rules v with
    | nil => simp [validateJsonFromRequest, hr]
    | cons m ms => simp [validateJsonFromRequest, hr]

/-- C6 witness: the extractor theorem applied to CreateTodo with the empty
text, which violates the non-emptiness rule and is rejected with 400. -/
theorem c6_validate_json_witness :
    validateJsonFromRequest createTodoRules (Except.ok (⟨""⟩ : CreateTodo))
      = Except.error (400,
          String.replace
            ("Validation error: [" ++ String.intercalate "\n" (createTodoRules ⟨""⟩) ++ "]")
            "\n" ",") :=
  c6_validate_json.2.1 CreateTodo createTodoRules ⟨""⟩ (by decide)

/-- C8 (amended, distinctness half): in every state of the in-memory store
reachable by create, update and delete operations, the stored ids are
distinct. -/
theorem c8_reachable_keys_nodup :
    ∀ s : TodoStore, ReachableStore s → s.keys.Nodup := by
  intro s h
  induction h with
  | init => simp [TodoStore.keys]
  | create p h ih =>
    simpa [memoryCreate, TodoStore.insert, TodoStore.keys] using
      nodup_keys_upsert _ _ _ (by simpa [TodoStore.keys] using ih)
  | update L id p r s2 h heq ih =>
    rcases memoryUpdate_state L _ id p r s2 heq with h2 | ⟨t, h2⟩
    · exact h2 ▸ ih
    · rw [h2]
      simpa [TodoStore.insert, TodoStore.keys] using
        nodup_keys_upsert _ id t (by simpa [TodoStore.keys] using ih)
  | delete id h ih =>
    rw [memoryDelete_snd]
    simpa [TodoStore.erase, TodoStore.keys] using
      nodup_keys_remove _ id (by simpa [TodoStore.keys] using ih)

/-- C8 witness: the distinctness invariant applied to the concrete reachable
state obtained by one create on the empty store. -/
theorem c8_reachable_keys_nodup_witness :
    (TodoStore.keys (memoryCreate ⟨[]⟩ ⟨"a"⟩).2).Nodup :=
  c8_reachable_keys_nodup _ (ReachableStore.create ⟨"a"⟩ ReachableStore.init)

/-- The reachable store holding only todo 2: create "a", create "b", then
delete id 1. -/
def storeAfterDeleteOne : TodoStore :=
  (memoryDelete (memoryCreate (memoryCreate ⟨[]⟩ ⟨"a"⟩).2 ⟨"b"⟩).2 1).2

/-- C8 counterexample: in the reachable state create "a"; create "b";
delete 1 (which stores only todo 2), create assigns id size+1 = 2, an id
that is already stored — not fresh — and the insert overwrites todo 2, the
store still holding a single entry afterwards. -/
theorem c8_freshness_counterexample :
    ReachableStore storeAfterDeleteOne ∧
    (memoryCreate storeAfterDeleteOne ⟨"c"⟩).1.id ∈ storeAfterDeleteOne.keys ∧
    storeAfterDeleteOne.get 2 = some ⟨2, "b", false, []⟩ ∧
    (memoryCreate storeAfterDeleteOne ⟨"c"⟩).2.get 2 = some ⟨2, "c", false, []⟩ ∧
    (memoryCreate storeAfterDeleteOne ⟨"c"⟩).2.size = 1 := by
  refine ⟨?_, by decide, by decide, by decide, by decide⟩
  exact ReachableStore.delete 1
    (ReachableStore.create ⟨"b"⟩ (ReachableStore.create ⟨"a"⟩ ReachableStore.init))

/-- C10: error atomicity of the in-memory store — find and all return the
store unchanged, and whenever update or delete returns an error the store it
returns is the store it was given. -/
theorem c10_error_atomicity :
    (∀ (s : TodoStore) (id : Int), (memoryFind s id).2 = s) ∧
    (∀ s : TodoStore, (memoryAll s).2 = s) ∧
    (∀ (L : List Label) (s : TodoStore) (id : Int) (p : UpdateTodo)
        (e : RepositoryError) (s2 : TodoStore),
      memoryUpdate L s id p = some (Except.error e, s2) → s2 = s) ∧
    (∀ (s : TodoStore) (id : Int) (e : RepositoryError) (s2 : TodoStore),
      memoryDelete s id = (Except.error e, s2) → s2 = s) := by
  refine ⟨fun s id => rfl, fun s => rfl, ?_, ?_⟩
  · intro L s id p e s2 h
    cases hg : s.get id with
    | none =>
      simp [memoryUpdate, hg] at h
      exact h.2.symm
    | some todo =>
      cases hl : p.labels with
      | none => simp [memoryUpdate, hg, hl] at h
      | some ids =>
        cases hr : resolveLabels L ids with
        | none =>
          simp only [resolveLabels] at hr
          simp [memoryUpdate, resolveLabels, hg, hl, hr] at h
        | some rl =>
          simp only [resolveLabels] at hr
          simp [memoryUpdate, resolveLabels, hg, hl, hr] at h
  · intro s id e s2 h
    cases hg : s.get id with
    | none =>
      simp [memoryDelete, hg] at h
      rw [h.2.symm]
      show TodoStore.erase s id = s
      have : removeEntries s.entries id = s.entries :=
        removeEntries_of_lookup_none s.entries id hg
      simp [TodoStore.erase, this]
    | some todo => simp [memoryDelete, hg] at h

/-- C10 witness: the delete conjunct of the atomicity theorem applied to the
store holding only todo 1 and the absent id 2 — the failed delete returns
that store unchanged. -/
theorem c10_error_atomicity_witness :
    (⟨[(1, ⟨1, "a", false, []⟩)]⟩ : TodoStore) = ⟨[(1, ⟨1, "a", false, []⟩)]⟩ :=
  c10_error_atomicity.2.2.2 ⟨[(1, ⟨1, "a", false, []⟩)]⟩ 2
    (RepositoryError.NotFound 2) ⟨[(1, ⟨1, "a", false, []⟩)]⟩ rfl

end SimpleApi
